import Mathlib

/-!
# Verification of `aiohttp/pytest_plugin.py`

A shallow embedding of the event-loop/fixture orchestration core of the
aiohttp pytest plugin, together with theorems settling the spec claims.

Modelling conventions:
* Loops and servers are identified by natural numbers.
* Python exceptions are the inductive `PyErr`; fallible code returns
  `Except PyErr α`.
* Side effects are recorded in an explicit trace (`List Event`).
* A `@contextlib.contextmanager` generator without `try`/`finally` runs its
  post-`yield` code only when the `with`-body completes normally: when the
  body raises, the exception is thrown into the generator at the `yield`
  point and propagates, skipping everything after the `yield`.  The
  embeddings of `_runtime_warning_context` and `_passthrough_loop_context`
  encode exactly this.
-/

namespace AiohttpPytestPlugin

/-- Python exceptions that appear in `pytest_plugin.py`. -/
inductive PyErr where
  | runtimeError (msg : String)
  | valueError (msg : String)
  | exception (msg : String)
  | stopAsyncIteration
  | testFailure (msg : String)
deriving DecidableEq, Repr

/-- Side effects recorded while running the harness. -/
inductive Event where
  | setupLoop (id : Nat)
  | teardownLoop (id : Nat) (fast : Bool)
  | runBody
deriving DecidableEq, Repr

/-- Is an event a `teardown_test_loop` call? -/
def Event.isTeardown : Event → Bool
  | .teardownLoop _ _ => true
  | _ => false

/-- A warning record captured by `warnings.catch_warnings(record=True)`:
category name, filename, line number and message. -/
structure Warning where
  category : String
  filename : String
  lineno : Nat
  message : String
deriving DecidableEq, Repr

/-- The per-warning line built by `_runtime_warning_context`, the embedding of
the format string of line 119 of the source:
`{w.filename}:{w.lineno}:{w.message}`. -/
def formatWarning (w : Warning) : String :=
  w.filename ++ ":" ++ toString w.lineno ++ ":" ++ w.message

/-- The aggregate message raised by `_runtime_warning_context` (lines 122-126):
`'{} Runtime Warning{},\n{}'.format(len(rw), '' if len(rw) == 1 else 's',
'\n'.join(rw))`. -/
def runtimeWarningMsg (rw : List String) : String :=
  toString rw.length ++ " Runtime Warning" ++
    (if rw.length == 1 then "" else "s") ++ ",\n" ++
    String.intercalate "\n" rw

/-- Embedding of `_runtime_warning_context` (lines 109-126).  The argument is
the outcome of the `with`-body: its result, its trace, and the warnings
captured during it.  After a normal return the recorded warnings are filtered
for category `RuntimeWarning` and, if any matched, a `RuntimeError` with the
aggregate message is raised.  When the body raised, the code after `yield` is
skipped (no `try` around the `yield`) and the exception propagates. -/
def runtime_warning_context (run : Except PyErr α × List Event × List Warning) :
    Except PyErr α × List Event :=
  match run with
  | (.error e, tr, _) => (.error e, tr)
  | (.ok a, tr, ws) =>
      let rw := (ws.filter fun w => w.category == "RuntimeWarning").map formatWarning
      if rw.isEmpty then (.ok a, tr)
      else (.error (.runtimeError (runtimeWarningMsg rw)), tr)

/-- Embedding of `_passthrough_loop_context` (lines 129-142).  If a loop is
supplied it is yielded unchanged and nothing else happens.  Otherwise a fresh
loop (`setup_test_loop`) is created and yielded, and `teardown_test_loop`
runs after the `yield` — hence only when the body completed normally, since
the generator has no `try`/`finally`. -/
def passthrough_loop_context (loop : Option Nat) (fast : Bool) (freshId : Nat)
    (body : Nat → Except PyErr α × List Event × List Warning) :
    Except PyErr α × List Event × List Warning :=
  match loop with
  | some l => body l
  | none =>
      match body freshId with
      | (.ok a, tr, ws) =>
          (.ok a, Event.setupLoop freshId :: tr ++ [Event.teardownLoop freshId fast], ws)
      | (.error e, tr, ws) =>
          (.error e, Event.setupLoop freshId :: tr, ws)

/-- The data of `pyfuncitem` used by `pytest_pyfunc_call`: whether the test
function is a coroutine function, the already-computed `loop` funcarg if any,
and the test body as a function of the loop it is run on, returning its
outcome, its trace, and the warnings captured during its execution. -/
structure PyFuncItem where
  isCoroutine : Bool
  existingLoop : Option Nat
  body : Nat → Except PyErr Unit × List Event × List Warning

/-- Embedding of `pytest_pyfunc_call` (lines 153-166).  For a coroutine test
it nests `_runtime_warning_context` around `_passthrough_loop_context`
around the body and returns `some` outcome; for a non-coroutine test it
returns `none` (the hook declines). -/
def pytest_pyfunc_call (fast : Bool) (item : PyFuncItem) (freshId : Nat) :
    Option (Except PyErr Unit × List Event) :=
  if item.isCoroutine then
    some (runtime_warning_context
      (passthrough_loop_context item.existingLoop fast freshId item.body))
  else
    none

/-! ## Fixture lifecycle adapter (`pytest_fixture_setup`, lines 41-94) -/

/-- One advancement (`__anext__`) outcome of an async generator: it yields a
value, finishes (raises `StopAsyncIteration`), or raises another exception. -/
inductive GenNext (α : Type) where
  | yields (v : α)
  | stop
  | raises (e : PyErr)
deriving DecidableEq, Repr

/-- A suspended async generator, modelled as the sequence of outcomes its
successive `__anext__` calls will produce; an exhausted generator (empty
list) raises `StopAsyncIteration` on every further advancement. -/
def anext (gen : List (GenNext α)) : GenNext α × List (GenNext α) :=
  match gen with
  | [] => (.stop, [])
  | s :: rest => (s, rest)

/-- Embedding of the `finalizer` closure (lines 83-88): it advances the
generator exactly once via `_loop.run_until_complete(gen.__anext__())`,
returning the resulting value; `StopAsyncIteration` is caught and swallowed
(`pass`), any other exception propagates.  Returns the finalizer's outcome
(`some v` when the generator yielded another value `v`, a value pytest then
discards) together with the remaining generator state. -/
def finalizer (gen : List (GenNext α)) : Except PyErr (Option α) × List (GenNext α) :=
  match anext gen with
  | (.yields v, rest) => (.ok (some v), rest)
  | (.stop, rest) => (.ok none, rest)
  | (.raises e, rest) => (.error e, rest)

/-- The message of the exception raised at lines 71-74 of the source. -/
def loopFixtureErrMsg : String :=
  "Asynchronous fixtures must depend on the \x27loop\x27 fixture or be used in tests depending from it."

/-- Whether the adapted fixture function is an async generator or a plain
coroutine function (the classification of lines 47-55). -/
inductive FixtureKind where
  | asyncGen
  | coroutine
deriving DecidableEq, Repr

/-- An async fixture as seen by the `wrapper`: its kind, its generator-step
sequence (used when `kind = asyncGen`), and its coroutine result (used when
`kind = coroutine`). -/
structure AsyncFixture (α : Type) where
  kind : FixtureKind
  gen : List (GenNext α)
  coro : Except PyErr α

/-- The pytest `request` data used by the `wrapper`: the names of all
fixtures in scope for the requesting test, and the loop instance that
`request.getfixturevalue('loop')` would resolve. -/
structure Request where
  fixturenames : List String
  loopValue : Nat

/-- Result of running the `wrapper`: the value (or exception) handed to
pytest, how many times the fixture's async code was advanced, whether a
finalizer was registered, and on which loop the fixture ran (`none` when it
never ran). -/
structure WrapperResult (α : Type) where
  result : Except PyErr α
  advanced : Nat
  finalizerRegistered : Bool
  usedLoop : Option Nat

/-- Embedding of `wrapper` (lines 62-92).  It first requires
`'loop' in request.fixturenames`, raising the descriptive exception of
lines 71-74 otherwise — before resolving any loop or advancing any async
code.  With a loop in scope it resolves the shared loop, then either runs
the coroutine to completion, or advances the async generator once (after
registering the finalizer) and returns the first yielded value; a first
advancement that finishes or raises propagates its exception. -/
def wrapper (fx : AsyncFixture α) (req : Request) : WrapperResult α :=
  if "loop" ∈ req.fixturenames then
    let l := req.loopValue
    match fx.kind with
    | .asyncGen =>
        match anext fx.gen with
        | (.yields v, _) => ⟨.ok v, 1, true, some l⟩
        | (.stop, _) => ⟨.error .stopAsyncIteration, 1, true, some l⟩
        | (.raises e, _) => ⟨.error e, 1, true, some l⟩
    | .coroutine =>
        ⟨fx.coro, 1, false, some l⟩
  else
    ⟨.error (.exception loopFixtureErrMsg), 0, false, none⟩

/-! ## Loop parameterization (`pytest_generate_tests`, lines 169-199) -/

/-- Python's `repr` of a list of strings, as interpolated by `%s` in the
error message of lines 191-193 (e.g. `['pyloop']`, `[]`). -/
def pyListRepr (l : List String) : String :=
  "[" ++ String.intercalate ", " (l.map fun s => "\x27" ++ s ++ "\x27") ++ "]"

/-- Python's `str.strip(' ?')`: remove every leading and trailing character
that is a space or `?`. -/
def stripChars (s : String) (cs : List Char) : String :=
  String.mk (((s.toList.dropWhile (· ∈ cs)).reverse.dropWhile (· ∈ cs)).reverse)

/-- Helper for `splitOnChar`: walk the characters, cutting at each separator;
`cur` holds the characters of the current field in reverse. -/
def splitOnCharAux (sep : Char) : List Char → List Char → List String
  | [], cur => [String.mk cur.reverse]
  | c :: rest, cur =>
      if c = sep then String.mk cur.reverse :: splitOnCharAux sep rest []
      else splitOnCharAux sep rest (c :: cur)

/-- Python's `s.split(',')` for a one-character separator: split at every
occurrence; adjacent or boundary separators yield empty fields, and the empty
string yields one empty field. -/
def splitOnChar (s : String) (sep : Char) : List String :=
  splitOnCharAux sep s.toList []

/-- Python's `s.endswith('?')` for a one-character suffix: does the last
character equal it? -/
def endsWithChar (s : String) (c : Char) : Bool :=
  match s.toList.getLast? with
  | some d => d == c
  | none => false

/-- The `avail_factories` dict keys (lines 174-180): `pyloop` always, plus
`uvloop` / `tokio` when those imports succeeded. -/
def avail_factories (uvloopAvail tokioAvail : Bool) : List String :=
  "pyloop" :: ((if uvloopAvail then ["uvloop"] else []) ++
    (if tokioAvail then ["tokio"] else []))

/-- `factories[name] = ...` with Python dict key semantics: inserting an
existing key keeps its original position. -/
def addFactory (acc : List String) (name : String) : List String :=
  if name ∈ acc then acc else acc ++ [name]

/-- The `for name in loops.split(',')` loop of lines 186-196, accumulating
the `factories` keys in insertion order.  A name is required unless its raw
form ends in `?`; the name is then stripped of spaces and `?`.  An unknown
required name raises
`ValueError("Unknown loop '%s', available loops: %s" % (name, list(factories.keys())))`
— note the message interpolates the keys of `factories`, the dict built so
far, not of `avail_factories`.  An unknown optional name is skipped. -/
def selectLoops (avail : List String) : List String → List String → Except PyErr (List String)
  | [], acc => .ok acc
  | n :: rest, acc =>
      let required := !(endsWithChar n '?')
      let name := stripChars n [' ', '?']
      if name ∈ avail then
        selectLoops avail rest (addFactory acc name)
      else if required then
        .error (.valueError ("Unknown loop \x27" ++ name ++ "\x27, available loops: " ++
          pyListRepr acc))
      else
        selectLoops avail rest acc

/-- Embedding of `pytest_generate_tests` (lines 169-199): `none` when
`loop_factory` is not among the metafunc's fixture names (the hook returns
without parametrizing); otherwise the ids of the `loop_factory`
parameterization (`some (.ok ids)`) or the `ValueError` raised for an
unknown required loop name.  The value `"all"` is first replaced by
`"pyloop,uvloop?,tokio?"`. -/
def pytest_generate_tests (fixturenames : List String) (loops : String)
    (uvloopAvail tokioAvail : Bool) : Option (Except PyErr (List String)) :=
  if "loop_factory" ∈ fixturenames then
    let avail := avail_factories uvloopAvail tokioAvail
    let loops := if loops == "all" then "pyloop,uvloop?,tokio?" else loops
    some (selectLoops avail (splitOnChar loops ',') [])
  else
    none

/-! ## Server/client registry (`test_server`, `raw_test_server`,
`test_client`, lines 218-302) -/

/-- Embedding of the factory `go` of `test_server` / `raw_test_server` /
`test_client` as far as the registry is concerned (lines 226-230, 249-253,
292-294): the started instance is appended to the per-test list after a
successful start, and returned. -/
def registry_go (registry : List Nat) (started : Nat) : List Nat × Nat :=
  (registry ++ [started], started)

/-- The registry contents after a test created the given instances in order,
starting from the empty per-test list. -/
def createAll (ids : List Nat) : List Nat :=
  ids.foldl (fun acc s => (registry_go acc s).1) []

/-- Embedding of the `finalize` teardown loop (lines 234-237, 257-260,
298-301): `while servers: await servers.pop().close()` — repeatedly remove
the LAST element of the registry and close it, until the registry is empty.
Returns the close order and the final registry contents. -/
def finalize (servers : List Nat) : List Nat × List Nat :=
  match servers with
  | [] => ([], [])
  | a :: rest =>
      let s := (a :: rest).getLastD a
      let (order, rem) := finalize (a :: rest).dropLast
      (s :: order, rem)
termination_by servers.length
decreasing_by simp [List.length_dropLast]

/-- The per-test lifecycle of one registry fixture, with the host protocol
for yield fixtures.  Modelled from the spec: the host runs the fixture code
after `yield` (the `finalize` loop) during its teardown phase, on the normal
and failure path alike; the missing part is the test-collection host itself,
which is outside this repository.  Returns the body's outcome unchanged, the
close order, and the final registry contents. -/
def run_test_with_registry (created : List Nat) (body : Except PyErr Unit) :
    Except PyErr Unit × List Nat × List Nat :=
  (body, finalize (createAll created))

/-- The shapes a first argument to `test_client`'s `go` can take, partitioned
exactly as the `isinstance` tests of lines 276-290 use them: an
`Application`, a `BaseTestServer` (a `TestServer` or `RawTestServer`), a
callable that is neither (invoked with the loop to produce a new value), or
any other non-callable value (carrying the `repr` of its type). -/
inductive Param where
  | app (id : Nat)
  | server (id : Nat)
  | callableOther (f : Nat → Param)
  | other (tyRepr : String)

/-- Python's `repr(type(x))` for the error message of line 290. -/
def Param.tyReprOf : Param → String
  | .app _ => "<class \x27aiohttp.web_app.Application\x27>"
  | .server _ => "<class \x27aiohttp.test_utils.TestServer\x27>"
  | .callableOther _ => "<class \x27function\x27>"
  | .other s => s

/-- The server a `TestClient` ends up wrapping: either a `TestServer` newly
constructed for an application (with the loop), or the pre-built server that
was passed in. -/
inductive ClientServer where
  | newServer (appId : Nat) (loop : Nat)
  | given (serverId : Nat)
deriving DecidableEq, Repr

/-- The `isinstance` dispatch of lines 283-290: an `Application` gets a new
`TestServer` built for it, a `BaseTestServer` is wrapped directly, anything
else raises `ValueError("Unknown argument type: %r" % type(__param))`. -/
def test_client_dispatch (loop : Nat) (p : Param) : Except PyErr ClientServer :=
  match p with
  | .app a => .ok (.newServer a loop)
  | .server s => .ok (.given s)
  | _ => .error (.valueError ("Unknown argument type: " ++ p.tyReprOf))

/-- Embedding of `go` of `test_client` (lines 274-294): a callable that is
neither an `Application` nor a `BaseTestServer` is first invoked with the
loop (`__param = __param(loop, *args, **kwargs)`), then the `isinstance`
dispatch runs on the (possibly replaced) parameter. -/
def test_client_go (loop : Nat) (p : Param) : Except PyErr ClientServer :=
  match p with
  | .callableOther f => test_client_dispatch loop (f loop)
  | _ => test_client_dispatch loop p

/-! ## Helper lemmas -/

/-- Registering creations one by one onto an accumulator appends them. -/
theorem createAll_aux (ids acc : List Nat) :
    ids.foldl (fun a s => (registry_go a s).1) acc = acc ++ ids := by
  induction ids generalizing acc with
  | nil => simp
  | cons x xs ih =>
      rw [List.foldl_cons, ih]
      simp [registry_go]

/-- The registry after the creations of one test holds them in creation
order. -/
theorem createAll_eq (ids : List Nat) : createAll ids = ids := by
  simp [createAll, createAll_aux]

/-- One iteration of the `while servers:` pop loop removes the last
element. -/
theorem finalize_concat (l : List Nat) (a : Nat) :
    finalize (l ++ [a]) = (a :: (finalize l).1, (finalize l).2) := by
  cases l with
  | nil => simp [finalize]
  | cons b t =>
      rw [show (b :: t) ++ [a] = b :: (t ++ [a]) from rfl, finalize]
      rw [show b :: (t ++ [a]) = (b :: t) ++ [a] from rfl]
      rw [List.getLastD_concat, List.dropLast_concat]

/-- The pop loop closes the registry in reverse creation order and leaves it
empty. -/
theorem finalize_eq (l : List Nat) : finalize l = (l.reverse, []) := by
  induction l using List.reverseRecOn with
  | nil => simp [finalize]
  | append_singleton xs a ih =>
      rw [finalize_concat, ih]
      simp

/-! ## Claims -/

/-- Claim C1, counterexample.  The claim states that when the harness created
the Loop (no `loop` funcarg) and the test body raises, `teardown_test_loop`
still runs before `pytest_pyfunc_call` returns.  On the concrete run below —
coroutine test, no existing loop, body raising — the call returns the body's
exception and the trace contains the loop setup but no teardown event:
`_passthrough_loop_context` has no `try`/`finally`, so the exception thrown
into the generator at the `yield` skips the `teardown_test_loop` line. -/
theorem pyfunc_call_failure_loses_teardown_cex :
    pytest_pyfunc_call true
        ⟨true, none, fun _ => (.error (.testFailure "boom"), [Event.runBody], [])⟩ 7
      = some (.error (.testFailure "boom"), [Event.setupLoop 7, Event.runBody])
    ∧ ([Event.setupLoop 7, Event.runBody].any Event.isTeardown) = false :=
  ⟨rfl, rfl⟩

/-- Claim C1, amended.  When the harness created the Loop (no `loop`
funcarg supplied) and the test body raises, the exception propagates out of
`pytest_pyfunc_call` unchanged but the harness-created Loop is NOT released:
the trace gains only the `setup_test_loop` event and no teardown event beyond
any the body itself produced.  `teardown_test_loop` runs only on the normal
path. -/
theorem pyfunc_call_failure_no_teardown
    (fast : Bool) (item : PyFuncItem) (fresh : Nat) (e : PyErr)
    (tr : List Event) (ws : List Warning)
    (hco : item.isCoroutine = true)
    (hl : item.existingLoop = none)
    (hb : item.body fresh = (.error e, tr, ws)) :
    pytest_pyfunc_call fast item fresh = some (.error e, Event.setupLoop fresh :: tr)
    ∧ (Event.setupLoop fresh :: tr).any Event.isTeardown = tr.any Event.isTeardown := by
  constructor
  · simp [pytest_pyfunc_call, hco, passthrough_loop_context, hl, hb, runtime_warning_context]
  · simp [Event.isTeardown]

/-- Witness for the amended C1 theorem at a concrete failing test. -/
theorem pyfunc_call_failure_no_teardown_w :
    pytest_pyfunc_call false
        ⟨true, none, fun _ => (.error (.testFailure "E"), [], [])⟩ 0
      = some (.error (.testFailure "E"), [Event.setupLoop 0]) :=
  (pyfunc_call_failure_no_teardown false
    ⟨true, none, fun _ => (.error (.testFailure "E"), [], [])⟩ 0
    (.testFailure "E") [] [] rfl rfl rfl).1

/-- Claim C2, counterexample.  The claim states that a generator yielding a
second value at teardown is propagated or reported as an anomaly rather than
silently discarded.  Concretely, when the next advancement yields `42`, the
`finalizer` returns it as a perfectly normal success value — no exception,
no report; pytest ignores a finalizer's return value, so the second yield is
silently discarded. -/
theorem finalizer_second_yield_cex :
    finalizer ([GenNext.yields 42] : List (GenNext Nat)) = (.ok (some 42), []) :=
  rfl

/-- Claim C2, amended.  The registered finalizer advances the generator
exactly once more (the remaining generator state is the tail); an
end-of-sequence outcome (`StopAsyncIteration`, also on an already-exhausted
generator) is treated as successful cleanup and swallowed; any other
exception propagates; but a second yielded value is NOT reported as an
anomaly — the finalizer returns it as an ordinary value, which the host
discards. -/
theorem finalizer_behavior (v : Nat) (e : PyErr) (rest : List (GenNext Nat)) :
    finalizer (GenNext.stop :: rest) = (.ok none, rest)
    ∧ finalizer (GenNext.raises e :: rest) = (.error e, rest)
    ∧ finalizer (GenNext.yields v :: rest) = (.ok (some v), rest)
    ∧ finalizer ([] : List (GenNext Nat)) = (.ok none, [])
    ∧ ∀ gen : List (GenNext Nat), (finalizer gen).2 = gen.tail :=
  ⟨rfl, rfl, rfl, rfl, fun gen => by
    cases gen with
    | nil => rfl
    | cons s t => cases s <;> rfl⟩

/-- Claim C3: with only `pyloop` available, selecting the required unknown
name `bogus` makes test generation fail fast with a `ValueError` that names
the unknown identifier — but the message lists `[]`, not the available loop
names: the source interpolates `list(factories.keys())`, the selection dict
built so far (empty at that point), where its own text says
`available loops`; the claim (and the message's own wording) calls for
`avail_factories`. -/
theorem generate_tests_unknown_loop_at_bogus :
    pytest_generate_tests ["loop_factory"] "bogus" false false
      = some (.error (.valueError
          "Unknown loop \x27bogus\x27, available loops: []")) :=
  rfl

/-- Claim C4: for a coroutine test whose body returns normally, if any
captured warning has category `RuntimeWarning` (the never-awaited category),
`pytest_pyfunc_call` fails the test with a single aggregate `RuntimeError`
whose message is built from every matching occurrence, and each matching
occurrence's `file:line:message` line is among the listed ones. -/
theorem pyfunc_call_aggregates_warnings
    (fast : Bool) (item : PyFuncItem) (fresh : Nat)
    (tr : List Event) (ws : List Warning) (w : Warning)
    (hco : item.isCoroutine = true)
    (hb : item.body (item.existingLoop.getD fresh) = (.ok (), tr, ws))
    (hw : w ∈ ws) (hcat : w.category = "RuntimeWarning") :
    (pytest_pyfunc_call fast item fresh).map Prod.fst
      = some (.error (.runtimeError (runtimeWarningMsg
          ((ws.filter fun x => x.category == "RuntimeWarning").map formatWarning))))
    ∧ ∀ x ∈ ws, x.category = "RuntimeWarning" →
        formatWarning x ∈
          (ws.filter fun x => x.category == "RuntimeWarning").map formatWarning := by
  have hmemf : ∀ x ∈ ws, x.category = "RuntimeWarning" →
      formatWarning x ∈
        (ws.filter fun x => x.category == "RuntimeWarning").map formatWarning := by
    intro x hx hxc
    exact List.mem_map_of_mem _ (List.mem_filter.mpr ⟨hx, by simp [hxc]⟩)
  have hne : ((ws.filter fun x => x.category == "RuntimeWarning").map
      formatWarning).isEmpty = false := by
    cases hfe : (ws.filter fun x => x.category == "RuntimeWarning").map formatWarning with
    | nil => exact absurd (hfe ▸ hmemf w hw hcat) (List.not_mem_nil _)
    | cons y ys => rfl
  refine ⟨?_, hmemf⟩
  cases hl : item.existingLoop with
  | none =>
      rw [hl] at hb
      simp only [Option.getD_none] at hb
      simp [pytest_pyfunc_call, hco, passthrough_loop_context, hl, hb,
        runtime_warning_context, hne]
  | some l =>
      rw [hl] at hb
      simp only [Option.getD_some] at hb
      simp [pytest_pyfunc_call, hco, passthrough_loop_context, hl, hb,
        runtime_warning_context, hne]

/-- Witness for C4 at a concrete test whose body left a never-awaited
coroutine warning. -/
theorem pyfunc_call_aggregates_warnings_w :
    (pytest_pyfunc_call false
        ⟨true, none, fun _ => (.ok (), [],
          [⟨"RuntimeWarning", "t.py", 5, "coroutine was never awaited"⟩])⟩ 0).map Prod.fst
      = some (.error (.runtimeError (runtimeWarningMsg
          ((([⟨"RuntimeWarning", "t.py", 5, "coroutine was never awaited"⟩] :
              List Warning).filter
            fun x => x.category == "RuntimeWarning").map formatWarning)))) :=
  (pyfunc_call_aggregates_warnings false
    ⟨true, none, fun _ => (.ok (), [],
      [⟨"RuntimeWarning", "t.py", 5, "coroutine was never awaited"⟩])⟩ 0
    [] [⟨"RuntimeWarning", "t.py", 5, "coroutine was never awaited"⟩]
    ⟨"RuntimeWarning", "t.py", 5, "coroutine was never awaited"⟩
    rfl rfl (by simp) rfl).1

/-- Claim C5: an async fixture (generator or coroutine) whose resolved
dependency set does not include the `loop` fixture fails immediately inside
the `wrapper` with the descriptive usage error, before any of its async body
runs: zero advancements, no finalizer registered, and no loop — ad-hoc or
otherwise — ever used. -/
theorem wrapper_requires_loop
    (α : Type) (fx : AsyncFixture α) (req : Request)
    (h : "loop" ∉ req.fixturenames) :
    wrapper fx req = ⟨.error (.exception loopFixtureErrMsg), 0, false, none⟩ := by
  simp [wrapper, h]

/-- Witness for C5 at a concrete loop-less request. -/
theorem wrapper_requires_loop_w :
    wrapper (⟨.coroutine, [], .ok 42⟩ : AsyncFixture Nat) ⟨["fast", "request"], 0⟩
      = ⟨.error (.exception loopFixtureErrMsg), 0, false, none⟩ :=
  wrapper_requires_loop Nat ⟨.coroutine, [], .ok 42⟩ ⟨["fast", "request"], 0⟩ (by simp)

/-- Claim C6: if an existing Loop is supplied, `_passthrough_loop_context`
yields exactly that Loop and the run is exactly the body's run — no loop
setup, no loop teardown added, whatever the body's outcome; otherwise it
creates a fresh Loop, yields it to the body, and tears exactly that Loop down
when the scope exits (normally). -/
theorem passthrough_loop_context_spec :
    (∀ (l fresh : Nat) (fast : Bool)
        (body : Nat → Except PyErr Unit × List Event × List Warning),
      passthrough_loop_context (some l) fast fresh body = body l)
    ∧ (∀ (fresh : Nat) (fast : Bool)
        (body : Nat → Except PyErr Unit × List Event × List Warning)
        (tr : List Event) (ws : List Warning),
      body fresh = (.ok (), tr, ws) →
      passthrough_loop_context none fast fresh body =
        (.ok (), Event.setupLoop fresh :: tr ++ [Event.teardownLoop fresh fast], ws)) := by
  constructor
  · intro l fresh fast body
    rfl
  · intro fresh fast body tr ws h
    simp [passthrough_loop_context, h]

/-- Witness for C6: a supplied loop is passed straight through; without one a
fresh loop is set up and torn down around the body. -/
theorem passthrough_loop_context_spec_w :
    passthrough_loop_context (some 5) false 9
        (fun _ => ((.ok (), [Event.runBody], []) :
          Except PyErr Unit × List Event × List Warning))
      = (.ok (), [Event.runBody], [])
    ∧ passthrough_loop_context none true 9
        (fun _ => ((.ok (), [Event.runBody], []) :
          Except PyErr Unit × List Event × List Warning))
      = (.ok (), Event.setupLoop 9 :: [Event.runBody] ++ [Event.teardownLoop 9 true], []) :=
  ⟨passthrough_loop_context_spec.1 5 9 false _,
   passthrough_loop_context_spec.2 9 true _ [Event.runBody] [] rfl⟩

/-- Claim C7: whatever the test body's outcome, the registry fixture's
teardown closes the tracked entries in exact reverse (LIFO) order of
creation, each entry exactly as often as it was created (once per creation),
and afterwards the registry list is empty; the body's outcome is returned
unchanged. -/
theorem registry_teardown_lifo (created : List Nat) (body : Except PyErr Unit) :
    run_test_with_registry created body = (body, created.reverse, [])
    ∧ ∀ s : Nat, created.reverse.count s = created.count s := by
  constructor
  · unfold run_test_with_registry
    rw [createAll_eq, finalize_eq]
  · intro s
    exact List.count_reverse s created

/-- Claim C8: the loop-selection value `all` is treated exactly as
`pyloop,uvloop?,tokio?`; a soft-required (`?`-suffixed) name that is not
available is skipped silently — selection continues exactly as if the name
were absent, with no error and no parameterization for it; and the scenario
`pyloop,uvloop?` with `uvloop` unavailable yields exactly the one
parameterization `pyloop`. -/
theorem generate_tests_soft_optional :
    (∀ (fns : List String) (u t : Bool),
      pytest_generate_tests fns "all" u t
        = pytest_generate_tests fns "pyloop,uvloop?,tokio?" u t)
    ∧ (∀ (avail acc rest : List String) (n : String),
      endsWithChar n '?' = true → stripChars n [' ', '?'] ∉ avail →
      selectLoops avail (n :: rest) acc = selectLoops avail rest acc)
    ∧ pytest_generate_tests ["loop_factory"] "pyloop,uvloop?" false false
        = some (.ok ["pyloop"]) := by
  refine ⟨fun fns u t => rfl, ?_, rfl⟩
  intro avail acc rest n h1 h2
  simp [selectLoops, h1, h2]

/-- Witness for C8: with `uvloop` unavailable, `all` and the expanded list
agree, the optional `uvloop?` entry is dropped without effect, and
`pyloop,uvloop?` parameterizes exactly `pyloop`. -/
theorem generate_tests_soft_optional_w :
    pytest_generate_tests ["loop_factory"] "all" false false
        = pytest_generate_tests ["loop_factory"] "pyloop,uvloop?,tokio?" false false
    ∧ selectLoops ["pyloop"] ["uvloop?", "pyloop"] [] = selectLoops ["pyloop"] ["pyloop"] []
    ∧ pytest_generate_tests ["loop_factory"] "pyloop,uvloop?" false false
        = some (.ok ["pyloop"]) :=
  ⟨generate_tests_soft_optional.1 ["loop_factory"] false false,
   generate_tests_soft_optional.2.1 ["pyloop"] [] ["pyloop"] "uvloop?" rfl (by decide),
   generate_tests_soft_optional.2.2⟩

/-- Claim C9: `test_client`'s factory dispatches by shape — an application
argument yields a client around a newly constructed `TestServer` for that
application on the loop; a pre-built server argument yields a client around
exactly that server; a callable that is neither is first invoked with the
loop and its result dispatched; and any other shape raises the explicit
`Unknown argument type` `ValueError`. -/
theorem test_client_go_dispatch (loop a s : Nat) (f : Nat → Param) (d : String) :
    test_client_go loop (.app a) = .ok (.newServer a loop)
    ∧ test_client_go loop (.server s) = .ok (.given s)
    ∧ test_client_go loop (.callableOther f) = test_client_dispatch loop (f loop)
    ∧ test_client_go loop (.other d)
        = .error (.valueError ("Unknown argument type: " ++ d)) :=
  ⟨rfl, rfl, rfl, rfl⟩

/-- Claim C10: when the test body itself raises, `pytest_pyfunc_call`
propagates that exception unchanged — the post-`yield` warning inspection of
`_runtime_warning_context` is skipped, so no aggregate `RuntimeError` is
raised even if never-awaited `RuntimeWarning`s were captured during the
run. -/
theorem pyfunc_call_body_error_propagates
    (fast : Bool) (item : PyFuncItem) (fresh : Nat) (e : PyErr)
    (tr : List Event) (ws : List Warning)
    (hco : item.isCoroutine = true)
    (hb : item.body (item.existingLoop.getD fresh) = (.error e, tr, ws)) :
    (pytest_pyfunc_call fast item fresh).map Prod.fst = some (.error e) := by
  cases hl : item.existingLoop with
  | none =>
      rw [hl] at hb
      simp only [Option.getD_none] at hb
      simp [pytest_pyfunc_call, hco, passthrough_loop_context, hl, hb,
        runtime_warning_context]
  | some l =>
      rw [hl] at hb
      simp only [Option.getD_some] at hb
      simp [pytest_pyfunc_call, hco, passthrough_loop_context, hl, hb,
        runtime_warning_context]

/-- Witness for C10 at a concrete failing body that also left a
never-awaited warning: the body's own exception comes out, not a
`RuntimeError`. -/
theorem pyfunc_call_body_error_propagates_w :
    (pytest_pyfunc_call false
        ⟨true, some 3, fun _ => (.error (.testFailure "boom"), [Event.runBody],
          [⟨"RuntimeWarning", "t.py", 5, "coroutine was never awaited"⟩])⟩ 0).map Prod.fst
      = some (.error (.testFailure "boom")) :=
  pyfunc_call_body_error_propagates false
    ⟨true, some 3, fun _ => (.error (.testFailure "boom"), [Event.runBody],
      [⟨"RuntimeWarning", "t.py", 5, "coroutine was never awaited"⟩])⟩ 0
    (.testFailure "boom") [Event.runBody]
    [⟨"RuntimeWarning", "t.py", 5, "coroutine was never awaited"⟩] rfl rfl

end AiohttpPytestPlugin
